import Mathlib

/-!
Shallow embedding of src/client/LocalityCorner/Localitycorner.js.

The source file contains two copies of the same controller script. We call
the first copy (original, id-keyed) V1 and the second copy (name-keyed,
annotated FIXED in its comments) V2. Each copy is embedded in its own
namespace, with the function names of the source. DOM reads (select values,
search boxes, checkbox states) are passed as explicit arguments or carried
in small state records; awaited fetch calls are passed their outcome as a
`NetResult` argument; alert calls are collected in a returned list of
messages. JS Set objects are modelled as `Finset` (SameValueZero equality;
insertion order, which no claim depends on, is not modelled).
-/

/-- A JSON scalar value, covering the two scalar kinds the payloads of this
client contain: strings and numbers. -/
inductive Jval where
  | jstr (s : String)
  | jnum (n : Int)
deriving DecidableEq

/-- Whether a JSON scalar is a string. -/
def Jval.isStr : Jval → Bool
  | .jstr _ => true
  | .jnum _ => false

/-- JSON.stringify of a scalar value. -/
def Jval.stringify : Jval → String
  | .jstr s => "\"" ++ s ++ "\""
  | .jnum n => toString n

/-- JS truthiness of a JSON scalar: the empty string and 0 are falsy. -/
def Jval.truthy : Jval → Bool
  | .jstr s => s ≠ ""
  | .jnum n => n ≠ 0

/-- Outcome of an awaited fetch plus body parse: either the parsed response
value, or a rejection (network failure or JSON parse error), which the
try/catch blocks of the source observe as an exception. -/
inductive NetResult (α : Type) where
  | ok (response : α)
  | netError
deriving DecidableEq

/-- Decimal digit accumulation for parseIntDec. -/
def parseDigits (l : List Char) : Nat :=
  l.foldl (fun acc c => acc * 10 + (c.toNat - 48)) 0

/-- JS parseInt, base 10, on the strings this client feeds it (checkbox
value attributes rendered from numeric row ids, so always a well formed
optional minus sign followed by digits; the NaN result for malformed input
does not arise and is not modelled). -/
def parseIntDec (s : String) : Int :=
  match s.toList with
  | '-' :: rest => -(parseDigits rest : Int)
  | l => (parseDigits l : Int)

/-- A master locality JSON object, with the union of the fields that either
version of the script reads (V1 reads id, locality_name, billing_zone,
billing_km; V2 reads locality, zone, km, billing_km). -/
structure MasterLocality where
  id : Int
  locality_name : String
  billing_zone : Option String
  billing_km : Option Int
  locality : String
  zone : Option String
  km : Option Int
deriving DecidableEq

/-- One option element of a select box: its value attribute and its
displayed text. Assigning a number to the value attribute stringifies it. -/
structure DropOption where
  value : String
  text : String
deriving DecidableEq

/-- An address row as used in bulk mode rendering (fields read: id and
address). -/
structure AddressRow where
  id : Int
  address : String
deriving DecidableEq

/-- One bulk-mode row checkbox: its value attribute (rendered from the row
id) and its checked flag. -/
structure Checkbox where
  value : String
  checked : Bool
deriving DecidableEq

/-- Pagination state: the module globals currentPage and totalPages. -/
structure PageState where
  currentPage : Int
  totalPages : Int
deriving DecidableEq

namespace V1

/-- The JSON body fields of a POST response that V1 postData reads:
data.success and data.error. -/
structure PostResponse where
  success : Bool
  error : String
deriving DecidableEq

/-- V1 postData (lines 292 to 304): returns whether the call succeeded,
together with the list of alert messages shown. A response whose success
field is false triggers an alert carrying the error field of the body; a
rejected fetch or body parse is caught and triggers a generic alert. -/
def postData (r : NetResult PostResponse) : Bool × List String :=
  match r with
  | .ok data => if data.success then (true, []) else (false, ["Error: " ++ data.error])
  | .netError => (false, ["Network Error"])

/-- V1 populateDropdown (lines 40 to 49): a placeholder option with empty
value, then one option per locality whose value is the numeric id (written
into the value attribute, hence stringified) and whose text is
locality_name. -/
def populateDropdown (data : List MasterLocality) : List DropOption :=
  ⟨"", "-- Select --"⟩ :: data.map fun loc => ⟨toString loc.id, loc.locality_name⟩

/-- The /save-mapping/ body V1 sends (line 141): address_id and
locality_id, where locality_id is the value of the selected option. -/
def saveMappingBody (addressId : Int) (localityId : String) : List (String × Jval) :=
  [("address_id", Jval.jnum addressId), ("locality_id", Jval.jstr localityId)]

end V1

namespace V2

/-- The response data V2 postData reads: the HTTP ok flag, the detail field
of the parsed error body for a non-2xx response (none when the body parse
failed or the field is absent), and the success field of a 2xx body. -/
structure HttpResponse where
  ok : Bool
  detail : Option Jval
  success : Bool
deriving DecidableEq

/-- V2 postData (lines 613 to 630): on a non-2xx response it alerts with
the stringified detail field (or a fallback text when detail is absent or
falsy) and returns false; on a 2xx response it returns the success flag of
the body with no alert; a rejection is caught and alerts generically. -/
def postData (r : NetResult HttpResponse) : Bool × List String :=
  match r with
  | .ok res =>
      if !res.ok then
        (false, ["Error: " ++ (match res.detail with
          | some d => if d.truthy then d.stringify else "Validation Failed"
          | none => "Validation Failed")])
      else (res.success, [])
  | .netError => (false, ["Network Error"])

/-- V2 populateDropdown (lines 338 to 347): a placeholder option, then one
option per locality whose value and text are both the locality name. -/
def populateDropdown (data : List MasterLocality) : List DropOption :=
  ⟨"", "-- Select --"⟩ :: data.map fun loc => ⟨loc.locality, loc.locality⟩

/-- The /save-mapping/ body V2 sends (lines 446 to 450): address_id, plus
the selected locality name as both locality_id and locality_name. -/
def saveMappingBody (addressId : Int) (locName : String) : List (String × Jval) :=
  [("address_id", Jval.jnum addressId), ("locality_id", Jval.jstr locName),
   ("locality_name", Jval.jstr locName)]

end V2

/-- changePage (lines 120 to 123, identical in both copies): computes the
page a fetch is triggered for, or none when no fetch is triggered. -/
def changePage (st : PageState) (delta : Int) : Option Int :=
  let newPage := st.currentPage + delta
  if newPage > 0 ∧ newPage ≤ st.totalPages then some newPage else none

/-- startEdit (lines 126 to 129): overwrites the single global editingRowId
with the clicked row id, regardless of its previous value. -/
def startEdit (id : Int) (_prev : Option Int) : Option Int := some id

/-- The per-row edit test of renderTable (line 84): a row is rendered in
Editing state exactly when editingRowId equals its id. -/
def rowIsEditing (editingRowId : Option Int) (rowId : Int) : Bool :=
  editingRowId == some rowId

/-- Result of a saveEdit run: the new editingRowId, the alerts shown, and
the /save-mapping/ body posted (none when no request was made). -/
structure SaveEditResult where
  editingRowId : Option Int
  alerts : List String
  posted : Option (List (String × Jval))
deriving DecidableEq

/-- Result of a saveSinglePending run: alerts shown, the body posted (none
when no network call was made), whether the next pending item was
re-fetched, and whether the global pending counter was refreshed. -/
structure SingleSaveResult where
  alerts : List String
  posted : Option (List (String × Jval))
  refetchedNext : Bool
  refreshedPendingCount : Bool
deriving DecidableEq

/-- The fields of the /search-pending/ response that fetchBulkData reads:
results and pagination.total_records. -/
structure SearchPendingResponse where
  results : List AddressRow
  total_records : Int
deriving DecidableEq

/-- The fields of the /bulk-save/ response that saveBulk reads: success and
count. -/
structure BulkSaveResponse where
  success : Bool
  count : Int
deriving DecidableEq

/-- Result of a saveBulk run: alerts shown, whether the POST was issued,
the page passed to fetchBulkData and to fetchTableData afterwards (none
when not called), and whether an uncaught rejection aborted the handler
(saveBulk has no try/catch). -/
structure SaveBulkResult where
  alerts : List String
  posted : Bool
  bulkRefetchPage : Option Int
  tableRefetchPage : Option Int
  raised : Bool
deriving DecidableEq

/-- Result of an addNewMaster run: alerts shown, the body posted (none when
validation stopped the call), and whether the master dropdowns were
reloaded. -/
structure AddMasterResult where
  alerts : List String
  posted : Option (List (String × Jval))
  reloadedMasters : Bool
deriving DecidableEq

namespace V1

/-- V1 saveEdit (lines 136 to 144): an empty select value returns silently;
otherwise the mapping is posted and, regardless of the postData result,
editingRowId is cleared and the table reloaded. -/
def saveEdit (id : Int) (selValue : String) (r : NetResult PostResponse)
    (editingRowId : Option Int) : SaveEditResult :=
  if selValue = "" then ⟨editingRowId, [], none⟩
  else
    let res := postData r
    ⟨none, res.2, some (saveMappingBody id selValue)⟩

/-- V1 saveSinglePending (lines 182 to 194): with no loaded pending item or
an empty select value it alerts and returns without any network call; on a
successful post it re-fetches the next pending item and refreshes the
global pending counter from a fresh page-1 listing. -/
def saveSinglePending (pending : Option AddressRow) (locId : String)
    (r : NetResult PostResponse) : SingleSaveResult :=
  match pending with
  | none => ⟨["Select a locality!"], none, false, false⟩
  | some item =>
      if locId = "" then ⟨["Select a locality!"], none, false, false⟩
      else
        let res := postData r
        if res.1 then ⟨res.2, some (saveMappingBody item.id locId), true, true⟩
        else ⟨res.2, some (saveMappingBody item.id locId), false, false⟩

/-- The bulk-mode state V1 touches: the rendered checkboxes of the bulk
table body, and the module global bulkSelection, a JS Set of checkbox value
strings. -/
structure BulkState where
  rows : List Checkbox
  bulkSelection : Finset String
deriving DecidableEq

/-- V1 updateBulkSet (lines 217 to 220): adds the checkbox value string
when the box is checked, removes it otherwise. -/
def updateBulkSet (chk : Checkbox) (sel : Finset String) : Finset String :=
  if chk.checked then insert chk.value sel else sel.erase chk.value

/-- V1 fetchBulkData (lines 197 to 215): re-renders the bulk table from the
response rows (fresh, unchecked checkboxes whose value attributes are the
rendered row ids) and then clears bulkSelection. The fetch is not wrapped
in try/catch, so a rejection aborts the handler (flag true) leaving the
state untouched. -/
def fetchBulkData (r : NetResult SearchPendingResponse) (st : BulkState) :
    BulkState × Bool :=
  match r with
  | .netError => (st, true)
  | .ok data => (⟨data.results.map fun row => ⟨toString row.id, false⟩, ∅⟩, false)

/-- The onchange wiring of a bulk row checkbox (line 209): a user click on
checkbox i flips its checked flag and runs updateBulkSet on the updated
box. Out-of-range indices leave the state unchanged. -/
def clickBulkRow (i : Nat) (st : BulkState) : BulkState :=
  match st.rows[i]? with
  | none => st
  | some c =>
      let c2 : Checkbox := ⟨c.value, !c.checked⟩
      ⟨st.rows.set i c2, updateBulkSet c2 st.bulkSelection⟩

/-- V1 toggleAllBulk (lines 222 to 229): forces every visible checkbox to
the checked value of the select-all control and runs updateBulkSet on each
in turn. -/
def toggleAllBulk (mainChecked : Bool) (st : BulkState) : BulkState :=
  let rows2 := st.rows.map fun c => ⟨c.value, mainChecked⟩
  ⟨rows2, rows2.foldl (fun s c => updateBulkSet c s) st.bulkSelection⟩

/-- The bulk-mode states reachable from startup (empty table and empty
selection) through the bulk event handlers. -/
inductive BulkReachable : BulkState → Prop where
  | init : BulkReachable ⟨[], ∅⟩
  | fetch (data : SearchPendingResponse) {st : BulkState} :
      BulkReachable st → BulkReachable (fetchBulkData (.ok data) st).1
  | click (i : Nat) {st : BulkState} :
      BulkReachable st → BulkReachable (clickBulkRow i st)
  | toggleAll (b : Bool) {st : BulkState} :
      BulkReachable st → BulkReachable (toggleAllBulk b st)

/-- V1 saveBulk (lines 231 to 249): warns and stops when the selection or
the locality choice is empty; otherwise posts address_ids (the selection)
with locality_id. On a success response it alerts with the updated count
and re-fetches both the bulk search and the view table at page 1; on a
non-success response it does nothing further, and the un-caught rejection
of a failed fetch aborts the handler silently. -/
def saveBulk (sel : Finset String) (locId : String)
    (r : NetResult BulkSaveResponse) : SaveBulkResult :=
  if sel = ∅ ∨ locId = "" then
    ⟨["Select addresses and locality!"], false, none, none, false⟩
  else
    match r with
    | .netError => ⟨[], true, none, none, true⟩
    | .ok data =>
        if data.success then
          ⟨["Updated " ++ toString data.count ++ " addresses!"], true, some 1, some 1, false⟩
        else ⟨[], true, none, none, false⟩

/-- The address_ids array of the V1 /bulk-save/ body (line 240): the
members of bulkSelection, which are strings. -/
def bulkAddressIds (sel : Finset String) : Finset Jval := sel.image Jval.jstr

/-- V1 addNewMaster (lines 253 to 266): warns and stops when name or zone
is blank; otherwise posts via postData, and on success alerts and reloads
the master dropdowns. -/
def addNewMaster (name zone : String) (r : NetResult PostResponse) : AddMasterResult :=
  if name = "" ∨ zone = "" then ⟨["Enter Name and Zone"], none, false⟩
  else
    let res := postData r
    let body := [("locality_name", Jval.jstr name), ("zone_name", Jval.jstr zone)]
    if res.1 then ⟨res.2 ++ ["Locality Added Successfully!"], some body, true⟩
    else ⟨res.2, some body, false⟩

end V1

namespace V2

/-- V2 saveEdit (lines 439 to 456): an empty select value alerts and stops;
otherwise the mapping is posted and editingRowId is cleared only when
postData reports success, so on failure the row stays in Editing state. -/
def saveEdit (id : Int) (selValue : String) (r : NetResult HttpResponse)
    (editingRowId : Option Int) : SaveEditResult :=
  if selValue = "" then ⟨editingRowId, ["Please select a locality"], none⟩
  else
    let res := postData r
    if res.1 then ⟨none, res.2, some (saveMappingBody id selValue)⟩
    else ⟨editingRowId, res.2, some (saveMappingBody id selValue)⟩

/-- V2 saveSinglePending (lines 494 to 511): same gating as V1; on success
it re-fetches the next pending item, reloads the view table, and refreshes
the global pending counter. -/
def saveSinglePending (pending : Option AddressRow) (locName : String)
    (r : NetResult HttpResponse) : SingleSaveResult :=
  match pending with
  | none => ⟨["Select a locality!"], none, false, false⟩
  | some item =>
      if locName = "" then ⟨["Select a locality!"], none, false, false⟩
      else
        let res := postData r
        if res.1 then ⟨res.2, some (saveMappingBody item.id locName), true, true⟩
        else ⟨res.2, some (saveMappingBody item.id locName), false, false⟩

/-- The bulk-mode state V2 touches: the rendered checkboxes and the module
global bulkSelection, a JS Set of parsed integer ids. -/
structure BulkState where
  rows : List Checkbox
  bulkSelection : Finset Int
deriving DecidableEq

/-- V2 updateBulkSet (lines 534 to 537): parses the checkbox value with
parseInt and adds the integer when checked, removes it otherwise. -/
def updateBulkSet (chk : Checkbox) (sel : Finset Int) : Finset Int :=
  if chk.checked then insert (parseIntDec chk.value) sel
  else sel.erase (parseIntDec chk.value)

/-- V2 fetchBulkData (lines 514 to 532): identical to V1: re-renders the
table from the response rows and clears bulkSelection; no try/catch. -/
def fetchBulkData (r : NetResult SearchPendingResponse) (st : BulkState) :
    BulkState × Bool :=
  match r with
  | .netError => (st, true)
  | .ok data => (⟨data.results.map fun row => ⟨toString row.id, false⟩, ∅⟩, false)

/-- V2 saveBulk (lines 548 to 572): same control flow as V1; the body also
carries the locality name as locality_name. -/
def saveBulk (sel : Finset Int) (locName : String)
    (r : NetResult BulkSaveResponse) : SaveBulkResult :=
  if sel = ∅ ∨ locName = "" then
    ⟨["Select addresses and locality!"], false, none, none, false⟩
  else
    match r with
    | .netError => ⟨[], true, none, none, true⟩
    | .ok data =>
        if data.success then
          ⟨["Updated " ++ toString data.count ++ " addresses!"], true, some 1, some 1, false⟩
        else ⟨[], true, none, none, false⟩

/-- The address_ids array of the V2 /bulk-save/ body (line 555): the
members of bulkSelection, which are numbers. -/
def bulkAddressIds (sel : Finset Int) : Finset Jval := sel.image Jval.jnum

end V2

/-- Unfolding equation for changePage. -/
lemma changePage_eq (st : PageState) (delta : Int) :
    changePage st delta =
      if st.currentPage + delta > 0 ∧ st.currentPage + delta ≤ st.totalPages
      then some (st.currentPage + delta) else none := rfl

/-- Folding updateBulkSet over checkboxes that are all checked adds exactly
their values. -/
lemma foldl_updateBulkSet_true (l : List Checkbox) (s : Finset String)
    (h : ∀ c ∈ l, c.checked = true) :
    l.foldl (fun s c => V1.updateBulkSet c s) s = s ∪ (l.map Checkbox.value).toFinset := by
  induction l generalizing s with
  | nil => simp
  | cons c t ih =>
      have hc : c.checked = true := h c (List.mem_cons_self c t)
      have ht : ∀ x ∈ t, x.checked = true := fun x hx => h x (List.mem_cons_of_mem c hx)
      simp only [List.foldl_cons, List.map_cons, List.toFinset_cons]
      rw [ih _ ht]
      unfold V1.updateBulkSet
      rw [if_pos hc, Finset.insert_union, Finset.union_insert]

/-- Folding updateBulkSet over checkboxes that are all unchecked removes
exactly their values. -/
lemma foldl_updateBulkSet_false (l : List Checkbox) (s : Finset String)
    (h : ∀ c ∈ l, c.checked = false) :
    l.foldl (fun s c => V1.updateBulkSet c s) s = s \ (l.map Checkbox.value).toFinset := by
  induction l generalizing s with
  | nil => simp
  | cons c t ih =>
      have hc : c.checked = false := h c (List.mem_cons_self c t)
      have ht : ∀ x ∈ t, x.checked = false := fun x hx => h x (List.mem_cons_of_mem c hx)
      simp only [List.foldl_cons, List.map_cons, List.toFinset_cons]
      rw [ih _ ht]
      unfold V1.updateBulkSet
      rw [if_neg (by simp [hc])]
      ext x
      simp only [Finset.mem_sdiff, Finset.mem_erase, Finset.mem_insert]
      tauto

/-- Overriding every checked flag leaves the list of checkbox values
unchanged. -/
lemma map_value_override (l : List Checkbox) (b : Bool) :
    (l.map fun c => (⟨c.value, b⟩ : Checkbox)).map Checkbox.value = l.map Checkbox.value := by
  rw [List.map_map]; rfl

/-- Replacing a list entry by an entry with the same value component leaves
the list of values unchanged. -/
lemma map_value_set (l : List Checkbox) (i : Nat) (c : Checkbox) (b : Bool)
    (h : l[i]? = some c) :
    (l.set i ⟨c.value, b⟩).map Checkbox.value = l.map Checkbox.value := by
  induction l generalizing i with
  | nil => simp at h
  | cons a t ih =>
      cases i with
      | zero =>
          simp only [List.getElem?_cons_zero, Option.some.injEq] at h
          cases h
          simp [List.set]
      | succ j =>
          simp only [List.getElem?_cons_succ] at h
          simp [List.set, ih j h]

/-- Invariant of the bulk mode event handlers: the selection only ever
contains values of currently rendered checkboxes. -/
lemma bulkSelection_subset_visible {st : V1.BulkState} (h : V1.BulkReachable st) :
    st.bulkSelection ⊆ (st.rows.map Checkbox.value).toFinset := by
  induction h with
  | init => simp
  | fetch data h ih => simp [V1.fetchBulkData]
  | click i h ih =>
      rename_i st
      cases hg : st.rows[i]? with
      | none => simpa [V1.clickBulkRow, hg] using ih
      | some c =>
          have hmem : c ∈ st.rows := List.getElem?_mem hg
          have hval : c.value ∈ st.rows.map Checkbox.value := List.mem_map_of_mem _ hmem
          simp only [V1.clickBulkRow, hg]
          rw [map_value_set _ _ _ _ hg]
          unfold V1.updateBulkSet
          by_cases hc : c.checked
          · simp only [hc, Bool.not_true, if_neg (by simp : ¬((false : Bool) = true))]
            exact (Finset.erase_subset _ _).trans ih
          · simp only [Bool.not_eq_true] at hc
            simp only [hc, Bool.not_false, if_pos rfl]
            exact Finset.insert_subset (List.mem_toFinset.mpr hval) ih
  | toggleAll b h ih =>
      rename_i st
      simp only [V1.toggleAllBulk]
      rw [map_value_override]
      cases b with
      | true =>
          rw [foldl_updateBulkSet_true _ _ (by
            intro c hc
            obtain ⟨d, _, rfl⟩ := List.mem_map.mp hc
            rfl)]
          rw [map_value_override]
          exact Finset.union_subset ih (Finset.Subset.refl _)
      | false =>
          rw [foldl_updateBulkSet_false _ _ (by
            intro c hc
            obtain ⟨d, _, rfl⟩ := List.mem_map.mp hc
            rfl)]
          rw [map_value_override]
          exact Finset.sdiff_subset.trans ih

/-- C8: in any reachable bulk-mode state, running toggleAllBulk with the
select-all control checked makes the Selection State exactly the set of the
visible row ids (their rendered checkbox values), and running it unchecked
removes exactly those, leaving the Selection State empty; selections from
other pages are never merged in, because the selection only ever holds
currently visible values. -/
theorem c8_toggleAll_selects_exactly_visible {st : V1.BulkState}
    (h : V1.BulkReachable st) :
    (V1.toggleAllBulk true st).bulkSelection = (st.rows.map Checkbox.value).toFinset ∧
    (V1.toggleAllBulk false st).bulkSelection = ∅ := by
  have hsub := bulkSelection_subset_visible h
  constructor
  · simp only [V1.toggleAllBulk]
    rw [foldl_updateBulkSet_true _ _ (by
      intro c hc
      obtain ⟨d, _, rfl⟩ := List.mem_map.mp hc
      rfl)]
    rw [map_value_override]
    exact Finset.union_eq_right.mpr hsub
  · simp only [V1.toggleAllBulk]
    rw [foldl_updateBulkSet_false _ _ (by
      intro c hc
      obtain ⟨d, _, rfl⟩ := List.mem_map.mp hc
      rfl)]
    rw [map_value_override]
    exact Finset.sdiff_eq_empty_iff_subset.mpr hsub

/-- C8 witness: two fetched rows with ids 3 and 5; select-all checked puts
exactly their rendered values in the selection, unchecked empties it. -/
theorem c8_toggleAll_witness :
    (V1.toggleAllBulk true
      (V1.fetchBulkData (NetResult.ok ⟨[⟨3, "a"⟩, ⟨5, "b"⟩], 2⟩) ⟨[], ∅⟩).1).bulkSelection
        = ({"3", "5"} : Finset String) ∧
    (V1.toggleAllBulk false
      (V1.fetchBulkData (NetResult.ok ⟨[⟨3, "a"⟩, ⟨5, "b"⟩], 2⟩) ⟨[], ∅⟩).1).bulkSelection
        = ∅ := by
  have h := c8_toggleAll_selects_exactly_visible
    (V1.BulkReachable.fetch ⟨[⟨3, "a"⟩, ⟨5, "b"⟩], 2⟩ V1.BulkReachable.init)
  refine ⟨?_, h.2⟩
  rw [h.1]
  decide

/-- C4: every completed run of fetchBulkData, in either version, leaves the
Selection State empty, regardless of the prior selection. -/
theorem c4_fetchBulkData_clears_selection (data : SearchPendingResponse)
    (st1 : V1.BulkState) (st2 : V2.BulkState) :
    (V1.fetchBulkData (NetResult.ok data) st1).1.bulkSelection = ∅ ∧
    (V2.fetchBulkData (NetResult.ok data) st2).1.bulkSelection = ∅ :=
  ⟨rfl, rfl⟩

/-- C5: the Edit State is one global value, so at most one row is ever in
Editing state, and calling startEdit on row b while row a is editing
renders a in Display state and b in Editing state. -/
theorem c5_single_editing_row (a b x y : Int) (e : Option Int) (hab : a ≠ b)
    (hxy : x ≠ y) (hx : rowIsEditing e x = true) :
    rowIsEditing (startEdit b (some a)) a = false ∧
    rowIsEditing (startEdit b (some a)) b = true ∧
    rowIsEditing e y = false := by
  have he : e = some x := by
    simpa [rowIsEditing] using hx
  subst he
  refine ⟨?_, ?_, ?_⟩
  · simp only [rowIsEditing, startEdit, beq_eq_false_iff_ne, ne_eq, Option.some.injEq]
    omega
  · simp [rowIsEditing, startEdit]
  · simp only [rowIsEditing, beq_eq_false_iff_ne, ne_eq, Option.some.injEq]
    omega

/-- C5 witness: row 1 is editing; startEdit on row 2 leaves row 1 in
Display state and row 2 in Editing state. -/
theorem c5_single_editing_row_witness :
    rowIsEditing (startEdit 2 (some 1)) 1 = false ∧
    rowIsEditing (startEdit 2 (some 1)) 2 = true ∧
    rowIsEditing (some 1) 2 = false :=
  c5_single_editing_row 1 2 1 2 (some 1) (by decide) (by decide) (by decide)

/-- C9: changePage triggers a fetch exactly when currentPage plus delta
lies in the closed interval from 1 to totalPages; in particular a step back
from page 1 and a step forward from the last page trigger no fetch. -/
theorem c9_changePage_bounds (st : PageState) (delta tp : Int) :
    ((changePage st delta).isSome ↔
      1 ≤ st.currentPage + delta ∧ st.currentPage + delta ≤ st.totalPages) ∧
    changePage ⟨1, tp⟩ (-1) = none ∧
    changePage ⟨tp, tp⟩ 1 = none := by
  refine ⟨?_, ?_, ?_⟩
  · rw [changePage_eq]
    by_cases h : st.currentPage + delta > 0 ∧ st.currentPage + delta ≤ st.totalPages
    · rw [if_pos h]
      simp only [Option.isSome_some, true_iff]
      omega
    · rw [if_neg h]
      simp only [Option.isSome_none, Bool.false_eq_true, false_iff]
      omega
  · have hc : ¬((1 : Int) + -1 > 0 ∧ (1 : Int) + -1 ≤ tp) := by omega
    rw [changePage_eq]
    exact if_neg hc
  · have hc : ¬(tp + 1 > 0 ∧ tp + 1 ≤ tp) := by omega
    rw [changePage_eq]
    exact if_neg hc

/-- C1 counterexample: a bulk save with a selected row and a chosen
locality: a server response with success false produces no alert at all
(the server error detail is not surfaced), and a transport failure also
produces no alert (the rejection is unhandled), contradicting the claim
that every mutating operation surfaces these failures to the user. -/
theorem c1_saveBulk_silent_counterexample :
    (V1.saveBulk {"7"} "3" (NetResult.ok ⟨false, 0⟩)).alerts = [] ∧
    (V1.saveBulk {"7"} "3" NetResult.netError).alerts = [] ∧
    (V1.saveBulk {"7"} "3" NetResult.netError).raised = true := by
  decide

/-- C1 amended: the operations routed through postData surface failures:
in both versions a transport failure alerts a generic network notice and
yields false; version 1 postData alerts the server error detail on a
success-false body; version 2 postData alerts the server detail only on a
non-2xx response and silently returns the success flag of a 2xx body; and
saveBulk, which does not use postData, surfaces nothing on a non-success
response and leaves a transport failure unhandled. -/
theorem c1_error_surfacing_amended
    (d1 : V1.PostResponse) (e2 f2 : V2.HttpResponse) (jd : Jval) (p : AddressRow)
    (name zone locId : String) (sel : Finset String) (sel2 : Finset Int)
    (bd : BulkSaveResponse)
    (h1 : d1.success = false) (hf2 : f2.ok = false) (hfd : f2.detail = some jd)
    (hjd : jd.truthy = true) (he2 : e2.ok = true)
    (hname : name ≠ "") (hzone : zone ≠ "") (hloc : locId ≠ "")
    (hsel : sel ≠ ∅) (hsel2 : sel2 ≠ ∅) (hbd : bd.success = false) :
    V1.postData (NetResult.ok d1) = (false, ["Error: " ++ d1.error]) ∧
    V1.postData NetResult.netError = (false, ["Network Error"]) ∧
    V2.postData (NetResult.ok f2) = (false, ["Error: " ++ jd.stringify]) ∧
    V2.postData NetResult.netError = (false, ["Network Error"]) ∧
    V2.postData (NetResult.ok e2) = (e2.success, []) ∧
    (V1.addNewMaster name zone (NetResult.ok d1)).alerts = ["Error: " ++ d1.error] ∧
    (V1.saveSinglePending (some p) locId (NetResult.ok d1)).alerts
      = ["Error: " ++ d1.error] ∧
    (V1.saveBulk sel locId (NetResult.ok bd)).alerts = [] ∧
    (V1.saveBulk sel locId NetResult.netError).alerts = [] ∧
    (V1.saveBulk sel locId NetResult.netError).raised = true ∧
    (V2.saveBulk sel2 locId (NetResult.ok bd)).alerts = [] ∧
    (V2.saveBulk sel2 locId NetResult.netError).alerts = [] := by
  refine ⟨?_, rfl, ?_, rfl, ?_, ?_, ?_, ?_, ?_, ?_, ?_, ?_⟩
  · simp [V1.postData, h1]
  · simp [V2.postData, hf2, hfd, hjd]
  · simp [V2.postData, he2]
  · simp [V1.addNewMaster, hname, hzone, V1.postData, h1]
  · simp [V1.saveSinglePending, hloc, V1.postData, h1]
  · simp [V1.saveBulk, hsel, hloc, hbd]
  · simp [V1.saveBulk, hsel, hloc]
  · simp [V1.saveBulk, hsel, hloc]
  · simp [V2.saveBulk, hsel2, hloc, hbd]
  · simp [V2.saveBulk, hsel2, hloc]

/-- C1 amended, witnessed at concrete inputs. -/
theorem c1_error_surfacing_witness :
    V1.postData (NetResult.ok ⟨false, "boom"⟩) = (false, ["Error: " ++ "boom"]) ∧
    V1.postData NetResult.netError = (false, ["Network Error"]) ∧
    V2.postData (NetResult.ok ⟨false, some (Jval.jstr "bad"), true⟩)
      = (false, ["Error: " ++ (Jval.jstr "bad").stringify]) ∧
    V2.postData NetResult.netError = (false, ["Network Error"]) ∧
    V2.postData (NetResult.ok ⟨true, none, false⟩) = (false, []) ∧
    (V1.addNewMaster "N" "Z" (NetResult.ok ⟨false, "boom"⟩)).alerts
      = ["Error: " ++ "boom"] ∧
    (V1.saveSinglePending (some ⟨1, "a"⟩) "3" (NetResult.ok ⟨false, "boom"⟩)).alerts
      = ["Error: " ++ "boom"] ∧
    (V1.saveBulk {"8"} "3" (NetResult.ok ⟨false, 0⟩)).alerts = [] ∧
    (V1.saveBulk {"8"} "3" NetResult.netError).alerts = [] ∧
    (V1.saveBulk {"8"} "3" NetResult.netError).raised = true ∧
    (V2.saveBulk {8} "3" (NetResult.ok ⟨false, 0⟩)).alerts = [] ∧
    (V2.saveBulk {8} "3" NetResult.netError).alerts = [] :=
  c1_error_surfacing_amended ⟨false, "boom"⟩ ⟨true, none, false⟩
    ⟨false, some (Jval.jstr "bad"), true⟩ (Jval.jstr "bad") ⟨1, "a"⟩
    "N" "Z" "3" {"8"} {8} ⟨false, 0⟩
    rfl rfl rfl (by decide) rfl (by decide) (by decide) (by decide)
    (by decide) (by decide) rfl

/-- C2 counterexample: in version 1, a saveEdit whose save-mapping call
fails with a transport error (the generic network alert is shown) still
clears editingRowId, so the row does not remain in Editing state. -/
theorem c2_saveEdit_clears_counterexample :
    (V1.saveEdit 5 "3" NetResult.netError (some 5)).alerts = ["Network Error"] ∧
    (V1.saveEdit 5 "3" NetResult.netError (some 5)).editingRowId = none := by
  decide

/-- C2 amended: in version 2 a failing saveEdit leaves editingRowId
unchanged, so the row remains in Editing state for a manual retry; version
1 ignores the postData result and clears editingRowId even on failure. -/
theorem c2_edit_state_on_failure (id : Int) (v : String) (e : Option Int)
    (r2 : NetResult V2.HttpResponse) (r1 : NetResult V1.PostResponse)
    (hv : v ≠ "") (hfail : (V2.postData r2).1 = false) :
    (V2.saveEdit id v r2 e).editingRowId = e ∧
    (V1.saveEdit id v r1 e).editingRowId = none := by
  constructor
  · simp [V2.saveEdit, hv, hfail]
  · simp [V1.saveEdit, hv]

/-- C2 amended, witnessed: a network failure during saveEdit of row 5. -/
theorem c2_edit_state_witness :
    (V2.saveEdit 5 "3" NetResult.netError (some 5)).editingRowId = some 5 ∧
    (V1.saveEdit 5 "3" NetResult.netError (some 5)).editingRowId = none :=
  c2_edit_state_on_failure 5 "3" (some 5) NetResult.netError NetResult.netError
    (by decide) rfl

/-- C3: the two versions key localities differently: for the same master
list and the same selected entry, version 1 renders the dropdown value from
the numeric id and sends it as locality_id, while version 2 renders the
value from the locality name and sends the name as both locality_id and
locality_name, so the two save-mapping payloads are never equal. -/
theorem c3_locality_keying_disagreement (data : List MasterLocality)
    (loc : MasterLocality) (a : Int) (hmem : loc ∈ data) :
    (⟨toString loc.id, loc.locality_name⟩ : DropOption) ∈ V1.populateDropdown data ∧
    (⟨loc.locality, loc.locality⟩ : DropOption) ∈ V2.populateDropdown data ∧
    V1.saveMappingBody a (toString loc.id) =
      [("address_id", Jval.jnum a), ("locality_id", Jval.jstr (toString loc.id))] ∧
    V2.saveMappingBody a loc.locality =
      [("address_id", Jval.jnum a), ("locality_id", Jval.jstr loc.locality),
       ("locality_name", Jval.jstr loc.locality)] ∧
    V1.saveMappingBody a (toString loc.id) ≠ V2.saveMappingBody a loc.locality := by
  refine ⟨?_, ?_, rfl, rfl, ?_⟩
  · exact List.mem_cons_of_mem _ (List.mem_map_of_mem _ hmem)
  · exact List.mem_cons_of_mem _ (List.mem_map_of_mem _ hmem)
  · intro hcontra
    have hlen := congrArg List.length hcontra
    simp [V1.saveMappingBody, V2.saveMappingBody] at hlen

/-- C3, witnessed on a one-entry master list (id 7, name Central) and
address 9. -/
theorem c3_locality_keying_witness :
    (⟨toString (7 : Int), "Central"⟩ : DropOption) ∈
      V1.populateDropdown [⟨7, "Central", none, none, "Central", none, none⟩] ∧
    (⟨"Central", "Central"⟩ : DropOption) ∈
      V2.populateDropdown [⟨7, "Central", none, none, "Central", none, none⟩] ∧
    V1.saveMappingBody 9 (toString (7 : Int)) =
      [("address_id", Jval.jnum 9), ("locality_id", Jval.jstr (toString (7 : Int)))] ∧
    V2.saveMappingBody 9 "Central" =
      [("address_id", Jval.jnum 9), ("locality_id", Jval.jstr "Central"),
       ("locality_name", Jval.jstr "Central")] ∧
    V1.saveMappingBody 9 (toString (7 : Int)) ≠ V2.saveMappingBody 9 "Central" :=
  c3_locality_keying_disagreement
    [⟨7, "Central", none, none, "Central", none, none⟩]
    ⟨7, "Central", none, none, "Central", none, none⟩ 9 (by decide)

/-- C6: saveSinglePending commits only when a pending item is loaded and
the locality selection is non-empty; an empty selection (or no loaded item)
performs no network call and alerts a validation warning; a successful
commit re-fetches the next pending item and refreshes the global pending
counter, in both versions. -/
theorem c6_saveSinglePending_gating (pending : Option AddressRow) (item : AddressRow)
    (locId locName : String) (r1 : NetResult V1.PostResponse)
    (r2 : NetResult V2.HttpResponse) (d1 : V1.PostResponse) (d2 : V2.HttpResponse)
    (hloc : locId ≠ "") (hname : locName ≠ "") (hd1 : d1.success = true)
    (hd2ok : d2.ok = true) (hd2s : d2.success = true) :
    (V1.saveSinglePending pending "" r1).posted = none ∧
    (V1.saveSinglePending pending "" r1).alerts = ["Select a locality!"] ∧
    (V1.saveSinglePending none locId r1).posted = none ∧
    (V1.saveSinglePending none locId r1).alerts = ["Select a locality!"] ∧
    (V1.saveSinglePending (some item) locId (NetResult.ok d1)).refetchedNext = true ∧
    (V1.saveSinglePending (some item) locId (NetResult.ok d1)).refreshedPendingCount
      = true ∧
    (V1.saveSinglePending (some item) locId (NetResult.ok d1)).posted =
      some (V1.saveMappingBody item.id locId) ∧
    (V2.saveSinglePending pending "" r2).posted = none ∧
    (V2.saveSinglePending pending "" r2).alerts = ["Select a locality!"] ∧
    (V2.saveSinglePending none locName r2).posted = none ∧
    (V2.saveSinglePending (some item) locName (NetResult.ok d2)).refetchedNext = true ∧
    (V2.saveSinglePending (some item) locName (NetResult.ok d2)).refreshedPendingCount
      = true := by
  refine ⟨?_, ?_, rfl, rfl, ?_, ?_, ?_, ?_, ?_, rfl, ?_, ?_⟩
  · cases pending <;> rfl
  · cases pending <;> rfl
  · simp [V1.saveSinglePending, hloc, V1.postData, hd1]
  · simp [V1.saveSinglePending, hloc, V1.postData, hd1]
  · simp [V1.saveSinglePending, hloc, V1.postData, hd1]
  · cases pending <;> rfl
  · cases pending <;> rfl
  · simp [V2.saveSinglePending, hname, V2.postData, hd2ok, hd2s]
  · simp [V2.saveSinglePending, hname, V2.postData, hd2ok, hd2s]

/-- C6, witnessed: pending item 1, locality 3 (V1) and Central (V2). -/
theorem c6_saveSinglePending_witness :
    (V1.saveSinglePending (some ⟨1, "x"⟩) "" NetResult.netError).posted = none ∧
    (V1.saveSinglePending (some ⟨1, "x"⟩) "" NetResult.netError).alerts
      = ["Select a locality!"] ∧
    (V1.saveSinglePending none "3" NetResult.netError).posted = none ∧
    (V1.saveSinglePending none "3" NetResult.netError).alerts
      = ["Select a locality!"] ∧
    (V1.saveSinglePending (some ⟨1, "x"⟩) "3" (NetResult.ok ⟨true, ""⟩)).refetchedNext
      = true ∧
    (V1.saveSinglePending (some ⟨1, "x"⟩) "3"
      (NetResult.ok ⟨true, ""⟩)).refreshedPendingCount = true ∧
    (V1.saveSinglePending (some ⟨1, "x"⟩) "3" (NetResult.ok ⟨true, ""⟩)).posted =
      some (V1.saveMappingBody (⟨1, "x"⟩ : AddressRow).id "3") ∧
    (V2.saveSinglePending (some ⟨1, "x"⟩) "" NetResult.netError).posted = none ∧
    (V2.saveSinglePending (some ⟨1, "x"⟩) "" NetResult.netError).alerts
      = ["Select a locality!"] ∧
    (V2.saveSinglePending none "C" NetResult.netError).posted = none ∧
    (V2.saveSinglePending (some ⟨1, "x"⟩) "C"
      (NetResult.ok ⟨true, none, true⟩)).refetchedNext = true ∧
    (V2.saveSinglePending (some ⟨1, "x"⟩) "C"
      (NetResult.ok ⟨true, none, true⟩)).refreshedPendingCount = true :=
  c6_saveSinglePending_gating (some ⟨1, "x"⟩) ⟨1, "x"⟩ "3" "C"
    NetResult.netError NetResult.netError ⟨true, ""⟩ ⟨true, none, true⟩
    (by decide) (by decide) rfl rfl rfl

/-- C7: saveBulk warns and performs no request when the selection or the
locality choice is empty; with both non-empty and a success response it
alerts the updated count and re-runs the bulk search and the table fetch at
page 1, in both versions. -/
theorem c7_saveBulk_gating (sel : Finset String) (sel2 : Finset Int)
    (locId locName : String) (r1 r2 : NetResult BulkSaveResponse)
    (d : BulkSaveResponse) (hsel : sel ≠ ∅) (hsel2 : sel2 ≠ ∅)
    (hloc : locId ≠ "") (hname : locName ≠ "") (hd : d.success = true) :
    (V1.saveBulk ∅ locId r1).posted = false ∧
    (V1.saveBulk ∅ locId r1).alerts = ["Select addresses and locality!"] ∧
    (V1.saveBulk sel "" r1).posted = false ∧
    (V1.saveBulk sel "" r1).alerts = ["Select addresses and locality!"] ∧
    V1.saveBulk sel locId (NetResult.ok d) =
      ⟨["Updated " ++ toString d.count ++ " addresses!"], true, some 1, some 1, false⟩ ∧
    (V2.saveBulk ∅ locName r2).posted = false ∧
    (V2.saveBulk ∅ locName r2).alerts = ["Select addresses and locality!"] ∧
    (V2.saveBulk sel2 "" r2).posted = false ∧
    (V2.saveBulk sel2 "" r2).alerts = ["Select addresses and locality!"] ∧
    V2.saveBulk sel2 locName (NetResult.ok d) =
      ⟨["Updated " ++ toString d.count ++ " addresses!"], true, some 1, some 1, false⟩ := by
  refine ⟨?_, ?_, ?_, ?_, ?_, ?_, ?_, ?_, ?_, ?_⟩
  · simp [V1.saveBulk]
  · simp [V1.saveBulk]
  · simp [V1.saveBulk]
  · simp [V1.saveBulk]
  · simp [V1.saveBulk, hsel, hloc, hd]
  · simp [V2.saveBulk]
  · simp [V2.saveBulk]
  · simp [V2.saveBulk]
  · simp [V2.saveBulk]
  · simp [V2.saveBulk, hsel2, hname, hd]

/-- C7, witnessed: one selected row, locality chosen, two rows updated. -/
theorem c7_saveBulk_witness :
    (V1.saveBulk ∅ "3" NetResult.netError).posted = false ∧
    (V1.saveBulk ∅ "3" NetResult.netError).alerts
      = ["Select addresses and locality!"] ∧
    (V1.saveBulk {"7"} "" NetResult.netError).posted = false ∧
    (V1.saveBulk {"7"} "" NetResult.netError).alerts
      = ["Select addresses and locality!"] ∧
    V1.saveBulk {"7"} "3" (NetResult.ok ⟨true, 2⟩) =
      ⟨["Updated " ++ toString (2 : Int) ++ " addresses!"], true, some 1, some 1,
        false⟩ ∧
    (V2.saveBulk ∅ "C" NetResult.netError).posted = false ∧
    (V2.saveBulk ∅ "C" NetResult.netError).alerts
      = ["Select addresses and locality!"] ∧
    (V2.saveBulk {7} "" NetResult.netError).posted = false ∧
    (V2.saveBulk {7} "" NetResult.netError).alerts
      = ["Select addresses and locality!"] ∧
    V2.saveBulk {7} "C" (NetResult.ok ⟨true, 2⟩) =
      ⟨["Updated " ++ toString (2 : Int) ++ " addresses!"], true, some 1, some 1,
        false⟩ :=
  c7_saveBulk_gating {"7"} {7} "3" "C" NetResult.netError NetResult.netError
    ⟨true, 2⟩ (by decide) (by decide) (by decide) (by decide) rfl

/-- C10: the two versions store Selection State members with different
types for the same checkbox interaction: version 1 updateBulkSet adds the
checkbox value as a string while version 2 parses it to an integer, so the
address_ids sent by saveBulk are JSON strings in version 1 and JSON numbers
in version 2, and for the same checked row the two id sets differ. -/
theorem c10_selection_element_types (sel1 : Finset String) (sel2 : Finset Int)
    (x y : Jval) (hx : x ∈ V1.bulkAddressIds sel1) (hy : y ∈ V2.bulkAddressIds sel2) :
    x.isStr = true ∧ y.isStr = false ∧
    V1.updateBulkSet ⟨"7", true⟩ ∅ = ({"7"} : Finset String) ∧
    V2.updateBulkSet ⟨"7", true⟩ ∅ = ({7} : Finset Int) ∧
    V1.bulkAddressIds (V1.updateBulkSet ⟨"7", true⟩ ∅) ≠
      V2.bulkAddressIds (V2.updateBulkSet ⟨"7", true⟩ ∅) := by
  refine ⟨?_, ?_, by decide, by decide, by decide⟩
  · obtain ⟨s, _, rfl⟩ := Finset.mem_image.mp hx
    rfl
  · obtain ⟨n, _, rfl⟩ := Finset.mem_image.mp hy
    rfl

/-- C10, witnessed on the row rendered with id 7. -/
theorem c10_selection_element_types_witness :
    (Jval.jstr "7").isStr = true ∧ (Jval.jnum 7).isStr = false ∧
    V1.updateBulkSet ⟨"7", true⟩ ∅ = ({"7"} : Finset String) ∧
    V2.updateBulkSet ⟨"7", true⟩ ∅ = ({7} : Finset Int) ∧
    V1.bulkAddressIds (V1.updateBulkSet ⟨"7", true⟩ ∅) ≠
      V2.bulkAddressIds (V2.updateBulkSet ⟨"7", true⟩ ∅) :=
  c10_selection_element_types {"7"} {7} (Jval.jstr "7") (Jval.jnum 7)
    (by decide) (by decide)
